import Mathlib

/-!
Shallow embedding of the news-feed retrieval and caching layer of the
`nlp_project` repository (`app/services/news_feed.py`, `app/config.py`,
and the QA dispatch section of `app/routers/news.py`), together with
theorems settling the specification claims about it.

Time instants (Python `time.time()` values) are modelled as rationals;
TTLs and timeouts are integers, as in `app/config.py`. Network effects
(`feedparser.parse`, `newspaper.Article`) are modelled as oracle
functions packaged in a `World`; each call the code issues is recorded
in a trace together with the timeout / user-agent parameters the code
actually passes (the source passes neither, so both are `none`).
-/

set_option autoImplicit false

universe u

/-- One-slot TTL cache, mirroring `InMemoryCache` in
`app/services/news_feed.py` (lines 23-40): `_value` starts as `None`
and `_expiry_epoch` as `0.0`. -/
structure InMemoryCache (α : Type u) where
  value : Option α
  expiry_epoch : ℚ

namespace InMemoryCache

/-- `get`: returns the stored value when it exists and the current time
is strictly before the stored expiry; otherwise `none` (lines 33-36). -/
def get {α : Type u} (c : InMemoryCache α) (now : ℚ) : Option α :=
  match c.value with
  | some v => if now < c.expiry_epoch then some v else none
  | none => none

/-- `set`: unconditionally replaces the stored value and sets
`expiry = now + ttl_seconds` (lines 38-40). -/
def set {α : Type u} (_c : InMemoryCache α) (now : ℚ) (value : Option α)
    (ttl_seconds : ℤ) : InMemoryCache α :=
  { value := value, expiry_epoch := now + (ttl_seconds : ℚ) }

end InMemoryCache

/-- The module-level `_feed_cache = InMemoryCache()` initial state. -/
def cacheInit {α : Type u} : InMemoryCache α :=
  { value := none, expiry_epoch := 0 }

/-- A parsed feed entry as `feedparser` presents it: each of the four
fields that `fetch_abc_feed` reads via `getattr(entry, field, "")` may
be absent. -/
structure Entry where
  title : Option String
  link : Option String
  published : Option String
  summary : Option String
deriving DecidableEq, Repr

/-- `NewsArticle` dataclass (`app/services/news_feed.py` lines 14-20). -/
structure NewsArticle where
  title : String
  link : String
  published : String
  summary : String
  full_text : Option String := none
deriving DecidableEq, Repr

/-- `Settings` (`app/config.py`): the fields `fetch_abc_feed` and the
claims depend on. `abc_feeds` is an association list standing for the
name-to-URL dict. -/
structure Settings where
  http_timeout_seconds : ℤ
  http_user_agent : String
  abc_feeds : List (String × String)
  rss_cache_ttl_seconds : ℤ

/-- The default `settings` instance constructed at import time in
`app/config.py`. -/
def settings : Settings :=
  { http_timeout_seconds := 10
    http_user_agent := "nlp-portfolio/1.0 (+https://github.com/tommywood81/nlp_project)"
    abc_feeds :=
      [("top_stories", "https://www.abc.net.au/news/feed/51120/rss.xml"),
       ("australia", "https://www.abc.net.au/news/feed/51892/rss.xml"),
       ("just_in", "https://www.abc.net.au/news/feed/52498/rss.xml")]
    rss_cache_ttl_seconds := 600 }

/-- `settings.abc_feeds.get(feed_name)`: dictionary lookup. -/
def lookupFeed (feeds : List (String × String)) (name : String) : Option String :=
  (feeds.find? (fun p => p.1 == name)).map Prod.snd

/-- A record of one network request as the code issues it: the URL it
passes, and the timeout / user-agent parameters it supplies from the
process configuration (`feedparser.parse(str(feed_url))` at line 70 and
`Article(article.link)` at line 82 supply neither, so the code always
issues calls with both fields `none`). -/
structure NetCall where
  url : String
  timeout : Option ℤ
  user_agent : Option String
deriving DecidableEq, Repr

/-- Errors `fetch_abc_feed` can raise: `ValueError` for an invalid feed
name (line 66) and `RuntimeError` wrapping a feed-level failure
(line 93). -/
inductive FetchError where
  | invalidFeedName (name : String)
  | feedFetchError (msg : String)
deriving DecidableEq, Repr

/-- The external world: `feedparser.parse` fetching and parsing the feed
document (an exception is an `error`), and the `newspaper.Article`
download+parse pipeline returning `art.text` (an exception anywhere in
`download`/`parse` is an `error`). -/
structure World where
  parseFeed : String → Except String (List Entry)
  enrich : String → Except String String

/-- The `NewsArticle(...)` construction at lines 73-78: each field is
`getattr(entry, field, "")`. -/
def buildArticle (e : Entry) : NewsArticle :=
  { title := e.title.getD ""
    link := e.link.getD ""
    published := e.published.getD ""
    summary := e.summary.getD ""
    full_text := none }

/-- The value assigned to `article.full_text` by the enrichment block at
lines 80-87: on success `art.text or None` (so the empty string becomes
`None`), on any exception `None`. -/
def fullTextOutcome (w : World) (link : String) : Option String :=
  match w.enrich link with
  | Except.ok t => if t = "" then none else some t
  | Except.error _ => none

/-- One iteration of the entry loop (lines 72-88): build the article,
and when `full_text and article.link` attempt enrichment, recording the
article-level network call it issues. -/
def processEntry (w : World) (full_text : Bool) (e : Entry) :
    NewsArticle × List NetCall :=
  let article := buildArticle e
  if full_text && !(article.link == "") then
    ({ article with full_text := fullTextOutcome w article.link },
     [{ url := article.link, timeout := none, user_agent := none }])
  else
    (article, [])

/-- The outcome of one `fetch_abc_feed` call: the returned value or
raised error, the cache state after the call, and the trace of network
calls issued during the call. -/
structure FetchResult where
  result : Except FetchError (List NewsArticle)
  cache : InMemoryCache (List NewsArticle)
  calls : List NetCall

/-- `fetch_abc_feed` (`app/services/news_feed.py` lines 46-93), with the
cache passed explicitly in place of the module global `_feed_cache` and
`now` in place of `time.time()`. -/
def fetch_abc_feed (w : World) (s : Settings) (c : InMemoryCache (List NewsArticle))
    (now : ℚ) (feed_name : String) (full_text : Bool) : FetchResult :=
  match c.get now with
  | some cached => { result := Except.ok cached, cache := c, calls := [] }
  | none =>
    match lookupFeed s.abc_feeds feed_name with
    | none =>
      { result := Except.error (FetchError.invalidFeedName feed_name)
        cache := c, calls := [] }
    | some feed_url =>
      if feed_url == "" then
        { result := Except.error (FetchError.invalidFeedName feed_name)
          cache := c, calls := [] }
      else
        let feedCall : NetCall := { url := feed_url, timeout := none, user_agent := none }
        match w.parseFeed feed_url with
        | Except.error msg =>
          { result := Except.error (FetchError.feedFetchError msg)
            cache := c, calls := [feedCall] }
        | Except.ok entries =>
          let processed := entries.map (processEntry w full_text)
          let articles := processed.map Prod.fst
          { result := Except.ok articles
            cache := c.set now (some articles) s.rss_cache_ttl_seconds
            calls := feedCall :: (processed.map Prod.snd).flatten }

/-- A world on which every network interaction fails; used to witness
claims that assert no network call is made. -/
def noWorld : World :=
  { parseFeed := fun _ => Except.error "network unavailable"
    enrich := fun _ => Except.error "network unavailable" }

/-- Concrete feed entries for witnesses. -/
def entryA : Entry :=
  { title := some "A", link := some "https://example.org/a"
    published := some "2025-01-01", summary := some "sa" }

/-- Second concrete entry; its link is the one `isoWorld` fails on. -/
def entryB : Entry :=
  { title := some "B", link := some "https://example.org/b"
    published := some "2025-01-02", summary := some "sb" }

/-- Third concrete entry. -/
def entryC : Entry :=
  { title := some "C", link := some "https://example.org/c"
    published := some "2025-01-03", summary := some "sc" }

/-- A world whose feed parses to three entries and whose enrichment
fails exactly on `entryB`'s link. -/
def isoWorld : World :=
  { parseFeed := fun _ => Except.ok [entryA, entryB, entryC]
    enrich := fun link =>
      if link == "https://example.org/b" then Except.error "boom"
      else Except.ok "BODY" }

/-- The article built from `entryA` without enrichment. -/
def articleA : NewsArticle :=
  { title := "A", link := "https://example.org/a"
    published := "2025-01-01", summary := "sa", full_text := none }

/-- The article built from `entryB` without enrichment; also the result
of enriching it under `isoWorld`, where its enrichment fails. -/
def articleB : NewsArticle :=
  { title := "B", link := "https://example.org/b"
    published := "2025-01-02", summary := "sb", full_text := none }

/-- The article built from `entryC` without enrichment. -/
def articleC : NewsArticle :=
  { title := "C", link := "https://example.org/c"
    published := "2025-01-03", summary := "sc", full_text := none }

/-- `articleA` after successful enrichment under `isoWorld`. -/
def articleAtext : NewsArticle :=
  { articleA with full_text := some "BODY" }

/-- `articleC` after successful enrichment under `isoWorld`. -/
def articleCtext : NewsArticle :=
  { articleC with full_text := some "BODY" }

/-- A batch of articles in which no `full_text` field holds the empty
string. -/
def goodBatch (arts : List NewsArticle) : Prop :=
  ∀ a ∈ arts, a.full_text ≠ some ""

/-- Python `str.strip()`: remove leading and trailing whitespace. -/
def pyStrip (s : String) : String :=
  String.mk (((s.data.dropWhile Char.isWhitespace).reverse.dropWhile
    Char.isWhitespace).reverse)

/-- Helper for Python `str.split(",")`: walk the characters, cutting at
every comma and keeping empty pieces. -/
def splitCommaAux : List Char → List Char → List String
  | [], acc => [String.mk acc.reverse]
  | ch :: rest, acc =>
    if ch = ',' then String.mk acc.reverse :: splitCommaAux rest []
    else splitCommaAux rest (ch :: acc)

/-- Python `tools.split(",")`. -/
def pySplitComma (s : String) : List String :=
  splitCommaAux s.data []

/-- Line 57 of `app/routers/news.py`:
`tool_list = [t.strip() for t in tools.split(",") if t.strip()]`. -/
def toolList (tools : String) : List String :=
  ((pySplitComma tools).map pyStrip).filter (fun t => !(t == ""))

/-- The fixed default QA question at line 81 of `app/routers/news.py`. -/
def defaultQAQuestion : String := "What is the main point of this article?"

/-- Line 81: `qa_question = (question or DEFAULT).strip()`. Python `or`
selects the supplied question when it is non-`None` and non-empty, and
the chosen string is then stripped. -/
def qaQuestion (question : Option String) : String :=
  pyStrip (match question with
    | some q => if q == "" then defaultQAQuestion else q
    | none => defaultQAQuestion)

/-- The argument pair the QA strategy is invoked with at line 82:
`strategies["qa"].analyze(text=qa_question, context=text)`. -/
structure QACall where
  question : String
  context : String
deriving DecidableEq, Repr

/-- Lines 80-82 of `app/routers/news.py`: when `"qa"` is among the
requested tools, the QA capability is invoked with
`(qa_question, context=article_text)`; otherwise it is not invoked. -/
def qaDispatch (tools : String) (question : Option String)
    (article_text : String) : Option QACall :=
  if (toolList tools).contains "qa" then
    some { question := qaQuestion question, context := article_text }
  else none

/-- C1: after `set(v, ttl=T)` at time `t0`, `get()` at any `t` with
`t0 <= t < t0+T` returns `v`, and `get()` at any `t >= t0+T` returns
absent. -/
theorem ttl_cache_correct {α : Type u} (c : InMemoryCache α) (v : α) (T : ℤ) (t0 t : ℚ) :
    (t0 ≤ t → t < t0 + (T : ℚ) → (c.set t0 (some v) T).get t = some v) ∧
    (t0 + (T : ℚ) ≤ t → (c.set t0 (some v) T).get t = none) := by
  constructor
  · intro _ h2
    simp [InMemoryCache.get, InMemoryCache.set, h2]
  · intro h
    simp [InMemoryCache.get, InMemoryCache.set, not_lt.mpr h]

/-- C1 witness: a concrete cache run, `set(5, ttl=10)` at `t0 = 100`. -/
theorem ttl_cache_correct_witness :
    ((InMemoryCache.set (cacheInit (α := ℕ)) 100 (some 5) 10).get 103 = some 5) ∧
    ((InMemoryCache.set (cacheInit (α := ℕ)) 100 (some 5) 10).get 110 = none) :=
  ⟨(ttl_cache_correct cacheInit 5 10 100 103).1 (by norm_num) (by norm_num),
   (ttl_cache_correct cacheInit 5 10 100 110).2 (by norm_num)⟩

/-- C2: on a cache miss, fetching an unregistered feed name with
`full_text = false` fails with `InvalidFeedName` and issues no network
call. -/
theorem invalid_feed_name_fails_without_network (w : World) (s : Settings)
    (c : InMemoryCache (List NewsArticle)) (now : ℚ) (feed_name : String)
    (hmiss : c.get now = none)
    (hname : lookupFeed s.abc_feeds feed_name = none) :
    (fetch_abc_feed w s c now feed_name false).result
        = Except.error (FetchError.invalidFeedName feed_name) ∧
    (fetch_abc_feed w s c now feed_name false).calls = [] := by
  simp [fetch_abc_feed, hmiss, hname]

/-- C2 witness: fetching `"does-not-exist"` from the initial cache state
under the default settings. -/
theorem invalid_feed_name_witness :
    (fetch_abc_feed noWorld settings cacheInit 0 "does-not-exist" false).result
        = Except.error (FetchError.invalidFeedName "does-not-exist") ∧
    (fetch_abc_feed noWorld settings cacheInit 0 "does-not-exist" false).calls = [] :=
  invalid_feed_name_fails_without_network noWorld settings cacheInit 0
    "does-not-exist" rfl rfl

/-- C5: whenever the cache holds an unexpired value, `fetch_abc_feed`
returns it, issues no network call, and leaves the cache untouched —
for any feed name and either value of `full_text`. -/
theorem cache_hit_returns_cached (w : World) (s : Settings)
    (c : InMemoryCache (List NewsArticle)) (now : ℚ) (feed_name : String)
    (full_text : Bool) (v : List NewsArticle)
    (hhit : c.get now = some v) :
    (fetch_abc_feed w s c now feed_name full_text).result = Except.ok v ∧
    (fetch_abc_feed w s c now feed_name full_text).calls = [] ∧
    (fetch_abc_feed w s c now feed_name full_text).cache = c := by
  simp [fetch_abc_feed, hhit]

/-- C5 witness: a cache seeded with one article and expiry 10, read at
time 5 with an unregistered name and `full_text = true`. -/
theorem cache_hit_returns_cached_witness :
    (fetch_abc_feed noWorld settings ⟨some [articleA], 10⟩ 5 "does-not-exist" true).result
        = Except.ok [articleA] ∧
    (fetch_abc_feed noWorld settings ⟨some [articleA], 10⟩ 5 "does-not-exist" true).calls = [] ∧
    (fetch_abc_feed noWorld settings ⟨some [articleA], 10⟩ 5 "does-not-exist" true).cache
        = ⟨some [articleA], 10⟩ :=
  cache_hit_returns_cached noWorld settings ⟨some [articleA], 10⟩ 5
    "does-not-exist" true [articleA] (by simp [InMemoryCache.get]; norm_num)

/-- C9: the cache is consulted before feed-name validation: an
unregistered name with an unexpired cached value returns the cached
sequence without error, and `InvalidFeedName` can only be raised when
the cache read returned nothing. -/
theorem cache_consulted_before_validation (w : World) (s : Settings)
    (c : InMemoryCache (List NewsArticle)) (now : ℚ) (feed_name : String)
    (full_text : Bool) :
    (∀ v, c.get now = some v → lookupFeed s.abc_feeds feed_name = none →
      (fetch_abc_feed w s c now feed_name full_text).result = Except.ok v) ∧
    ((fetch_abc_feed w s c now feed_name full_text).result
        = Except.error (FetchError.invalidFeedName feed_name) →
      c.get now = none) := by
  constructor
  · intro v hhit _
    simp [fetch_abc_feed, hhit]
  · intro herr
    cases hget : c.get now with
    | none => rfl
    | some v => simp [fetch_abc_feed, hget] at herr

/-- C9 witness: an unexpired cache with an unregistered feed name
returns the cached batch. -/
theorem cache_consulted_before_validation_witness :
    (fetch_abc_feed noWorld settings ⟨some [articleA], 10⟩ 5 "does-not-exist" false).result
        = Except.ok [articleA] :=
  (cache_consulted_before_validation noWorld settings ⟨some [articleA], 10⟩ 5
      "does-not-exist" false).1 [articleA]
    (by simp [InMemoryCache.get]; norm_num) rfl

/-- C10: when `fetch_abc_feed` fails (with either error), the cache
after the call is exactly the cache before the call: the cache is
written only on the success path. -/
theorem failed_fetch_preserves_cache (w : World) (s : Settings)
    (c : InMemoryCache (List NewsArticle)) (now : ℚ) (feed_name : String)
    (full_text : Bool) (e : FetchError)
    (herr : (fetch_abc_feed w s c now feed_name full_text).result = Except.error e) :
    (fetch_abc_feed w s c now feed_name full_text).cache = c := by
  unfold fetch_abc_feed at herr ⊢
  cases hget : c.get now with
  | some v => simp [hget]
  | none =>
    simp only [hget]
    cases hlk : lookupFeed s.abc_feeds feed_name with
    | none => simp
    | some feed_url =>
      simp only [hlk] at herr ⊢
      by_cases hurl : feed_url == ""
      · simp [hurl]
      · simp only [hurl] at herr ⊢
        cases hp : w.parseFeed feed_url with
        | error msg => simp [hp]
        | ok entries => simp [hget, hlk, hurl, hp] at herr

/-- C10 witness: a failing fetch (unregistered name) leaves the initial
cache unchanged. -/
theorem failed_fetch_preserves_cache_witness :
    (fetch_abc_feed noWorld settings cacheInit 0 "does-not-exist" false).cache
        = cacheInit :=
  failed_fetch_preserves_cache noWorld settings cacheInit 0 "does-not-exist"
    false (FetchError.invalidFeedName "does-not-exist") rfl

/-- A successful `get` can only return the stored value. -/
theorem get_value_eq {α : Type u} (c : InMemoryCache α) (now : ℚ) (v : α)
    (h : c.get now = some v) : c.value = some v := by
  cases hv : c.value with
  | none => simp [InMemoryCache.get, hv] at h
  | some x =>
    have hx : (if now < c.expiry_epoch then some x else none) = some v := by
      rw [← h]; simp [InMemoryCache.get, hv]
    by_cases ht : now < c.expiry_epoch
    · rw [if_pos ht] at hx; exact hx
    · rw [if_neg ht] at hx; cases hx

/-- The article produced for one entry when full-text enrichment is
requested: feed fields verbatim (defaulting to empty), `full_text`
skipped for an empty link and otherwise given by the enrichment
outcome. -/
theorem processEntry_fst_true (w : World) (e : Entry) :
    (processEntry w true e).1 =
      { title := e.title.getD "", link := e.link.getD ""
        published := e.published.getD "", summary := e.summary.getD ""
        full_text :=
          if e.link.getD "" = "" then none
          else fullTextOutcome w (e.link.getD "") } := by
  by_cases h : e.link.getD "" = ""
  · simp [processEntry, buildArticle, h]
  · simp [processEntry, buildArticle, h]

/-- The enrichment outcome is never the empty string: an empty
extraction is converted to `none` by `art.text or None`. -/
theorem fullTextOutcome_ne_empty (w : World) (link : String) :
    fullTextOutcome w link ≠ some "" := by
  unfold fullTextOutcome
  cases w.enrich link with
  | error msg => simp
  | ok t => by_cases h : t = "" <;> simp [h]

/-- No processed entry carries `full_text = some ""`, for either value
of the `full_text` flag. -/
theorem processEntry_full_text_ne_empty (w : World) (ft : Bool) (e : Entry) :
    (processEntry w ft e).1.full_text ≠ some "" := by
  cases ft with
  | false => simp [processEntry, buildArticle]
  | true =>
    by_cases h : e.link.getD "" = ""
    · simp [processEntry, buildArticle, h]
    · simp [processEntry, buildArticle, h, fullTextOutcome_ne_empty]

/-- Case analysis of a successful `fetch_abc_feed` call: either a cache
hit returning the cached batch with the cache unchanged, or a miss-path
fetch that resolved the name, parsed entries, processed them in order,
and wrote the result to the cache. -/
theorem fetch_ok_cases (w : World) (s : Settings)
    (c : InMemoryCache (List NewsArticle)) (now : ℚ) (feed_name : String)
    (full_text : Bool) (arts : List NewsArticle)
    (hok : (fetch_abc_feed w s c now feed_name full_text).result = Except.ok arts) :
    (c.get now = some arts ∧
      (fetch_abc_feed w s c now feed_name full_text).cache = c) ∨
    (∃ feed_url entries,
      c.get now = none ∧
      lookupFeed s.abc_feeds feed_name = some feed_url ∧
      w.parseFeed feed_url = Except.ok entries ∧
      arts = (entries.map (processEntry w full_text)).map Prod.fst ∧
      (fetch_abc_feed w s c now feed_name full_text).cache
        = c.set now (some arts) s.rss_cache_ttl_seconds) := by
  cases hget : c.get now with
  | some v =>
    left
    have hv : Except.ok (ε := FetchError) v = Except.ok arts := by
      rw [← hok]; simp [fetch_abc_feed, hget]
    injection hv with hv
    subst hv
    exact ⟨rfl, by simp [fetch_abc_feed, hget]⟩
  | none =>
    right
    cases hlk : lookupFeed s.abc_feeds feed_name with
    | none => simp [fetch_abc_feed, hget, hlk] at hok
    | some feed_url =>
      by_cases hurl : feed_url = ""
      · simp [fetch_abc_feed, hget, hlk, hurl] at hok
      · cases hp : w.parseFeed feed_url with
        | error msg => simp [fetch_abc_feed, hget, hlk, hurl, hp] at hok
        | ok entries =>
          have hmap := hok
          simp [fetch_abc_feed, hget, hlk, hurl, hp] at hmap
          have harts : arts = (entries.map (processEntry w full_text)).map Prod.fst := by
            rw [← hmap]; simp [List.map_map]
          refine ⟨feed_url, entries, rfl, rfl, hp, harts, ?_⟩
          rw [harts]
          simp [fetch_abc_feed, hget, hlk, hurl, hp, List.map_map]

/-- A cache hit determines the whole outcome of `fetch_abc_feed`. -/
theorem fetch_hit_eq (w : World) (s : Settings)
    (c : InMemoryCache (List NewsArticle)) (now : ℚ) (feed_name : String)
    (full_text : Bool) (v : List NewsArticle)
    (hhit : c.get now = some v) :
    fetch_abc_feed w s c now feed_name full_text
      = { result := Except.ok v, cache := c, calls := [] } := by
  unfold fetch_abc_feed
  rw [hhit]

/-- C3: when full-text enrichment is requested on a miss-path fetch with
`n` parsed entries, the call returns all `n` articles in feed order with
their fields taken from the entries; an article whose enrichment fails
gets `full_text` absent while every other article with a non-empty link
carries its own enrichment outcome; no error escapes. -/
theorem per_item_isolation (w : World) (s : Settings)
    (c : InMemoryCache (List NewsArticle)) (now : ℚ)
    (feed_name feed_url : String) (entries : List Entry) (k : ℕ) (msg : String)
    (hmiss : c.get now = none)
    (hurl : lookupFeed s.abc_feeds feed_name = some feed_url)
    (hne : feed_url ≠ "")
    (hparse : w.parseFeed feed_url = Except.ok entries)
    (hk : k < entries.length)
    (hfail : w.enrich ((entries.get ⟨k, hk⟩).link.getD "") = Except.error msg) :
    ∃ arts : List NewsArticle,
      (fetch_abc_feed w s c now feed_name true).result = Except.ok arts ∧
      arts.length = entries.length ∧
      (∀ (i : ℕ) (e : Entry), entries[i]? = some e →
        ∃ a : NewsArticle, arts[i]? = some a ∧
          a.title = e.title.getD "" ∧ a.link = e.link.getD "" ∧
          a.published = e.published.getD "" ∧ a.summary = e.summary.getD "" ∧
          (e.link.getD "" = "" → a.full_text = none) ∧
          (e.link.getD "" ≠ "" → a.full_text = fullTextOutcome w (e.link.getD ""))) ∧
      (∀ a : NewsArticle, arts[k]? = some a → a.full_text = none) := by
  refine ⟨(entries.map (processEntry w true)).map Prod.fst, ?_, ?_, ?_, ?_⟩
  · simp [fetch_abc_feed, hmiss, hurl, hne, hparse]
  · simp
  · intro i e hie
    refine ⟨(processEntry w true e).1, ?_, ?_⟩
    · simp [List.getElem?_map, hie]
    · rw [processEntry_fst_true]
      by_cases h : e.link.getD "" = "" <;> simp [h]
  · intro a ha
    have hfail2 : w.enrich ((entries[k]).link.getD "") = Except.error msg := hfail
    rw [List.getElem?_map, List.getElem?_map, List.getElem?_eq_getElem hk] at ha
    simp at ha
    rw [← ha, processEntry_fst_true]
    by_cases h : ((entries[k]).link.getD "") = ""
    · simp [h]
    · simp [h, fullTextOutcome, hfail2]

/-- C3 witness: three concrete entries whose middle enrichment fails. -/
theorem per_item_isolation_witness :
    ∃ arts : List NewsArticle,
      (fetch_abc_feed isoWorld settings cacheInit 0 "top_stories" true).result
          = Except.ok arts ∧
      arts.length = ([entryA, entryB, entryC] : List Entry).length ∧
      (∀ (i : ℕ) (e : Entry), ([entryA, entryB, entryC] : List Entry)[i]? = some e →
        ∃ a : NewsArticle, arts[i]? = some a ∧
          a.title = e.title.getD "" ∧ a.link = e.link.getD "" ∧
          a.published = e.published.getD "" ∧ a.summary = e.summary.getD "" ∧
          (e.link.getD "" = "" → a.full_text = none) ∧
          (e.link.getD "" ≠ "" →
            a.full_text = fullTextOutcome isoWorld (e.link.getD ""))) ∧
      (∀ a : NewsArticle, arts[1]? = some a → a.full_text = none) :=
  per_item_isolation isoWorld settings cacheInit 0 "top_stories"
    "https://www.abc.net.au/news/feed/51120/rss.xml" [entryA, entryB, entryC] 1 "boom"
    rfl rfl (by decide) rfl (by decide) rfl

/-- C4: a second `fetch_abc_feed` call with the same arguments, made
within the TTL window opened by a first successful miss-path call,
returns the identical article sequence and issues no network call —
whatever the network would now answer. -/
theorem fetch_idempotent_within_ttl (w1 w2 : World) (s : Settings)
    (c : InMemoryCache (List NewsArticle)) (t1 t2 : ℚ) (feed_name : String)
    (full_text : Bool) (arts : List NewsArticle)
    (hmiss : c.get t1 = none)
    (h1 : (fetch_abc_feed w1 s c t1 feed_name full_text).result = Except.ok arts)
    (_hle : t1 ≤ t2) (hlt : t2 < t1 + (s.rss_cache_ttl_seconds : ℚ)) :
    (fetch_abc_feed w2 s (fetch_abc_feed w1 s c t1 feed_name full_text).cache
        t2 feed_name full_text).result = Except.ok arts ∧
    (fetch_abc_feed w2 s (fetch_abc_feed w1 s c t1 feed_name full_text).cache
        t2 feed_name full_text).calls = [] := by
  rcases fetch_ok_cases w1 s c t1 feed_name full_text arts h1 with
    ⟨hget, _⟩ | ⟨feed_url, entries, _, _, _, _, hcacheq⟩
  · rw [hmiss] at hget; cases hget
  · have hhit : ((fetch_abc_feed w1 s c t1 feed_name full_text).cache).get t2
        = some arts := by
      rw [hcacheq]
      simp [InMemoryCache.get, InMemoryCache.set, hlt]
    rw [fetch_hit_eq w2 s _ t2 feed_name full_text arts hhit]
    exact ⟨rfl, rfl⟩

/-- C4 witness: a concrete first fetch at time 0 followed by a second
call at time 100 (within the 600-second TTL) against a dead network. -/
theorem fetch_idempotent_within_ttl_witness :
    (fetch_abc_feed noWorld settings
        (fetch_abc_feed isoWorld settings cacheInit 0 "top_stories" false).cache
        100 "top_stories" false).result = Except.ok [articleA, articleB, articleC] ∧
    (fetch_abc_feed noWorld settings
        (fetch_abc_feed isoWorld settings cacheInit 0 "top_stories" false).cache
        100 "top_stories" false).calls = [] :=
  fetch_idempotent_within_ttl isoWorld noWorld settings cacheInit 0 100
    "top_stories" false [articleA, articleB, articleC] rfl rfl
    (by norm_num) (by norm_num [settings])

/-- C6: articles returned by `fetch_abc_feed` never carry
`full_text = some ""`: provided every batch already in the cache
satisfies this, both the returned batch and the batch stored in the
cache afterwards satisfy it — a failed, skipped, or empty-text
enrichment yields an absent `full_text`, never the empty string. -/
theorem full_text_never_empty_string (w : World) (s : Settings)
    (c : InMemoryCache (List NewsArticle)) (now : ℚ) (feed_name : String)
    (full_text : Bool) (arts : List NewsArticle)
    (hcache : ∀ v, c.value = some v → goodBatch v)
    (hok : (fetch_abc_feed w s c now feed_name full_text).result = Except.ok arts) :
    goodBatch arts ∧
    (∀ v, (fetch_abc_feed w s c now feed_name full_text).cache.value = some v →
      goodBatch v) := by
  rcases fetch_ok_cases w s c now feed_name full_text arts hok with
    ⟨hget, hcacheq⟩ | ⟨feed_url, entries, _, _, _, harts, hcacheq⟩
  · have hv := get_value_eq c now arts hget
    exact ⟨hcache arts hv, by rw [hcacheq]; exact hcache⟩
  · have hgood : goodBatch arts := by
      intro a ha
      rw [harts] at ha
      rcases List.mem_map.mp ha with ⟨pe, hpe, hpa⟩
      rcases List.mem_map.mp hpe with ⟨e, _, hef⟩
      rw [← hpa, ← hef]
      exact processEntry_full_text_ne_empty w full_text e
    refine ⟨hgood, ?_⟩
    intro v hv
    rw [hcacheq] at hv
    simp [InMemoryCache.set] at hv
    rw [← hv]
    exact hgood

/-- C6 witness: the concrete enriched fetch under `isoWorld`. -/
theorem full_text_never_empty_string_witness :
    goodBatch [articleAtext, articleB, articleCtext] ∧
    (∀ v, (fetch_abc_feed isoWorld settings cacheInit 0 "top_stories" true).cache.value
        = some v → goodBatch v) :=
  full_text_never_empty_string isoWorld settings cacheInit 0 "top_stories" true
    [articleAtext, articleB, articleCtext]
    (fun v hv => absurd hv (by simp [cacheInit])) rfl

/-- C7 counterexample: for the whitespace-only question `" "` — empty
after trimming — the QA capability is invoked with the empty string, not
with the default question, because `(question or DEFAULT)` keeps any
non-empty string and only then strips it. -/
theorem qa_whitespace_counterexample :
    pyStrip " " = "" ∧
    qaDispatch "qa" (some " ") "ctx" = some { question := "", context := "ctx" } ∧
    qaDispatch "qa" (some " ") "ctx"
      ≠ some { question := defaultQAQuestion, context := "ctx" } :=
  ⟨by decide, by decide, by decide⟩

/-- C7 amended: the QA path uses the trimmed supplied question whenever
the question is present and non-empty BEFORE trimming (so a
whitespace-only question yields the empty question string), and falls
back to the fixed default question exactly when the question is absent
or the empty string; either way the capability receives
`context = article_text`. -/
theorem qa_question_selection (tools : String) (question : Option String)
    (article_text : String)
    (hqa : (toolList tools).contains "qa" = true) :
    (∀ q : String, question = some q → q ≠ "" →
      qaDispatch tools question article_text
        = some { question := pyStrip q, context := article_text }) ∧
    ((question = none ∨ question = some "") →
      qaDispatch tools question article_text
        = some { question := defaultQAQuestion, context := article_text }) := by
  have hmem : "qa" ∈ toolList tools := by simpa using hqa
  constructor
  · intro q hq hne
    subst hq
    simp [qaDispatch, hmem, qaQuestion, hne]
  · rintro (hq | hq) <;> subst hq <;>
      simp [qaDispatch, hmem, qaQuestion] <;> decide

/-- C7 witness: a concrete dispatch with tools `"summarize,qa"` and the
question `"hello"`. -/
theorem qa_question_selection_witness :
    (∀ q : String, (some "hello" : Option String) = some q → q ≠ "" →
      qaDispatch "summarize,qa" (some "hello") "ctx"
        = some { question := pyStrip q, context := "ctx" }) ∧
    (((some "hello" : Option String) = none ∨ (some "hello" : Option String) = some "") →
      qaDispatch "summarize,qa" (some "hello") "ctx"
        = some { question := defaultQAQuestion, context := "ctx" }) :=
  qa_question_selection "summarize,qa" (some "hello") "ctx" (by decide)

/-- C8: evaluated on a concrete full-text fetch, the code issues four
network calls (one feed document fetch plus three enrichment fetches)
and none of them carries the configured request timeout or the
configured user-agent, although the configuration defines both: the
source passes neither `settings.http_timeout_seconds` nor
`settings.http_user_agent` to `feedparser.parse` or to `Article`. -/
theorem network_calls_lack_configured_parameters :
    (fetch_abc_feed isoWorld settings cacheInit 0 "top_stories" true).calls.length = 4 ∧
    (fetch_abc_feed isoWorld settings cacheInit 0 "top_stories" true).calls.all
      (fun call => call.timeout == none && call.user_agent == none) = true ∧
    settings.http_timeout_seconds = 10 ∧
    settings.http_user_agent
      = "nlp-portfolio/1.0 (+https://github.com/tommywood81/nlp_project)" :=
  ⟨rfl, rfl, rfl, rfl⟩
